import Mathlib

/-!
Verification of the analytics pipeline of the `fundamental-agents` repository.

The numeric engines (`financial_metrics_agent.py`, `technical_analysis_agent.py`,
`risk_assessment_agent.py`, `valuation_agent.py`, `synthesis_reporting_agent.py`)
and the orchestrator state machine (`orchestrator.py`) are shallowly embedded
over ℚ.  Python floats are modelled as exact rationals; a missing value
(Python `None`) is `Option.none`.  Python truthiness on optional numbers
(`if x:` is false for both `None` and `0`) is modelled by `truthy`.
`float.__round__(x, n)` (round half to even) is modelled by `roundTo`.
-/

/-- Python truthiness of an optional number: `None` and `0` are falsy. -/
def truthy (v : Option ℚ) : Bool :=
  match v with
  | none => false
  | some x => x != 0

/-- Python `a or d` where `a` is an optional number and `d` a plain number:
yields `d` when `a` is falsy (`None` or `0`). -/
def pyOrQ (a : Option ℚ) (d : ℚ) : ℚ :=
  match a with
  | none => d
  | some x => if x = 0 then d else x

/-- Python `a or b` on two optional numbers: `b` when `a` is falsy. -/
def pyOrOpt (a b : Option ℚ) : Option ℚ :=
  if truthy a then a else b

/-- Round half to even (the semantics of Python `round` on exact values). -/
def roundHalfEven (y : ℚ) : ℤ :=
  if y - (⌊y⌋ : ℚ) < 1/2 then ⌊y⌋
  else if 1/2 < y - (⌊y⌋ : ℚ) then ⌊y⌋ + 1
  else if ⌊y⌋ % 2 = 0 then ⌊y⌋ else ⌊y⌋ + 1

/-- Python `round(x, n)` on an exact rational. -/
def roundTo (n : ℕ) (x : ℚ) : ℚ :=
  (roundHalfEven (x * 10 ^ n) : ℚ) / 10 ^ n

/-- Python `round(v, n) if v else None` — the emission idiom used throughout
the engines: a computed value that is `None` **or exactly 0** is emitted as
`None`, otherwise it is rounded. -/
def emitRound (n : ℕ) (v : Option ℚ) : Option ℚ :=
  match v with
  | none => none
  | some x => if x = 0 then none else some (roundTo n x)

/-!
## Data model (§3 of the spec, `raw_data` dict shape)

Statement/price records are modelled as structures whose fields are the
dictionary keys the engines read; a key that is absent (or `None`) is `none`.
All period collections are ordered newest first (index 0 = most recent).
-/

/-- One income-statement period record (keys read by the engines). -/
structure IncomeStatement where
  eps : Option ℚ := none
  weightedAverageShsOut : Option ℚ := none
  revenue : Option ℚ := none
  grossProfit : Option ℚ := none
  operatingIncome : Option ℚ := none
  netIncome : Option ℚ := none
  incomeBeforeTax : Option ℚ := none
  incomeTaxExpense : Option ℚ := none
  interestExpense : Option ℚ := none
  ebitda : Option ℚ := none
  deriving DecidableEq

/-- One balance-sheet period record. -/
structure BalanceSheet where
  totalStockholdersEquity : Option ℚ := none
  totalDebt : Option ℚ := none
  cashAndCashEquivalents : Option ℚ := none
  totalAssets : Option ℚ := none
  deriving DecidableEq

/-- One cash-flow-statement period record. -/
structure CashFlowStatement where
  freeCashFlow : Option ℚ := none
  operatingCashFlow : Option ℚ := none
  deriving DecidableEq

/-- One daily price record. -/
structure PriceRecord where
  close : Option ℚ := none
  high : Option ℚ := none
  low : Option ℚ := none
  volume : Option ℚ := none
  deriving DecidableEq

/-- Company profile record (numeric keys read by the engines). -/
structure Profile where
  beta : Option ℚ := none
  marketCap : Option ℚ := none
  mktCap : Option ℚ := none
  sharesOutstanding : Option ℚ := none
  deriving DecidableEq

/-- The `financials` sub-dict of a `RawDataset`. -/
structure Financials where
  income_statement : List IncomeStatement := []
  balance_sheet : List BalanceSheet := []
  cash_flow : List CashFlowStatement := []
  deriving DecidableEq

/-- A `RawDataset` as consumed by the engines.  `profile = none` models both
a missing and an empty (falsy) profile dict. -/
structure RawData where
  financials : Financials := {}
  prices : List PriceRecord := []
  profile : Option Profile := none
  deriving DecidableEq

/-- `(profile or {}).get(key)`. -/
def pget (p : Option Profile) (f : Profile → Option ℚ) : Option ℚ :=
  match p with
  | some pr => f pr
  | none => none

/-- `FinancialMetricsAgent._get_latest`: key from the most recent record. -/
def getLatest {α : Type} (data : List α) (f : α → Option ℚ) : Option ℚ :=
  match data.head? with
  | some d => f d
  | none => none

/-- `FinancialMetricsAgent._get_prev` (offset 1). -/
def getPrev {α : Type} (data : List α) (f : α → Option ℚ) : Option ℚ :=
  match data.get? 1 with
  | some d => f d
  | none => none

/-- `prices[0].get("close") if prices else None`. -/
def currentPrice (prices : List PriceRecord) : Option ℚ :=
  match prices.head? with
  | some p => p.close
  | none => none

/-!
## FinancialMetricsAgent (`financial_metrics_agent.py`)
-/

/-- `FinancialMetricsAgent._safe_divide`: `None` if either operand is
undefined or the denominator is zero, otherwise the exact quotient.
The Python `try/except` around it can never fire for numeric-or-`None`
operands, so the embedding is a total function (it "never raises"). -/
def safe_divide (n d : Option ℚ) : Option ℚ :=
  match n, d with
  | some a, some b => if b = 0 then none else some (a / b)
  | _, _ => none

/-- `FinancialMetricsAgent._growth_rate`: `(current-previous)/|previous|`,
`None` when either operand is undefined or `previous` is zero. -/
def growth_rate (c p : Option ℚ) : Option ℚ :=
  match c, p with
  | some a, some b => if b = 0 then none else some ((a - b) / |b|)
  | _, _ => none

/-- The unrounded P/E computed inside `_valuation_metrics`. -/
def peValue (prices : List PriceRecord) (income : List IncomeStatement) : Option ℚ :=
  safe_divide (currentPrice prices) (getLatest income IncomeStatement.eps)

/-- The unrounded P/B computed inside `_valuation_metrics`. -/
def pbValue (prices : List PriceRecord) (income : List IncomeStatement)
    (balance : List BalanceSheet) : Option ℚ :=
  safe_divide (currentPrice prices)
    (safe_divide (getLatest balance BalanceSheet.totalStockholdersEquity)
      (getLatest income IncomeStatement.weightedAverageShsOut))

/-- The unrounded P/S computed inside `_valuation_metrics`. -/
def psValue (prices : List PriceRecord) (income : List IncomeStatement) : Option ℚ :=
  safe_divide (currentPrice prices)
    (safe_divide (getLatest income IncomeStatement.revenue)
      (getLatest income IncomeStatement.weightedAverageShsOut))

/-- `ev = (market_cap or 0) + total_debt - cash if market_cap else None`. -/
def evValue (balance : List BalanceSheet) (profile : Option Profile) : Option ℚ :=
  let market_cap := pget profile Profile.marketCap
  let total_debt := pyOrQ (getLatest balance BalanceSheet.totalDebt) 0
  let cash := pyOrQ (getLatest balance BalanceSheet.cashAndCashEquivalents) 0
  if truthy market_cap then some (pyOrQ market_cap 0 + total_debt - cash) else none

/-- The unrounded EV/EBITDA computed inside `_valuation_metrics`. -/
def evEbitdaValue (income : List IncomeStatement) (balance : List BalanceSheet)
    (profile : Option Profile) : Option ℚ :=
  safe_divide (evValue balance profile) (getLatest income IncomeStatement.ebitda)

/-- `eps_growth` computed inside `_valuation_metrics`. -/
def epsGrowthValue (income : List IncomeStatement) : Option ℚ :=
  growth_rate (getLatest income IncomeStatement.eps) (getPrev income IncomeStatement.eps)

/-- The unrounded PEG computed inside `_valuation_metrics`:
`peg = safe_divide(pe, (eps_growth * 100) if eps_growth else None)` —
note the **truthiness** test on `eps_growth`, not a strict-positivity test. -/
def pegValue (prices : List PriceRecord) (income : List IncomeStatement) : Option ℚ :=
  safe_divide (peValue prices income)
    (match epsGrowthValue income with
     | some g => if g = 0 then none else some (g * 100)
     | none => none)

/-- Output record of `_valuation_metrics`. -/
structure ValuationMetrics where
  pe_ratio : Option ℚ
  pb_ratio : Option ℚ
  ps_ratio : Option ℚ
  ev_ebitda : Option ℚ
  peg_ratio : Option ℚ
  deriving DecidableEq

/-- `FinancialMetricsAgent._valuation_metrics`.  Every field is emitted via
`round(v, 2) if v else None`, so an exact-zero value becomes `None`. -/
def valuation_metrics (prices : List PriceRecord) (income : List IncomeStatement)
    (balance : List BalanceSheet) (profile : Option Profile) : ValuationMetrics where
  pe_ratio := emitRound 2 (peValue prices income)
  pb_ratio := emitRound 2 (pbValue prices income balance)
  ps_ratio := emitRound 2 (psValue prices income)
  ev_ebitda := emitRound 2 (evEbitdaValue income balance profile)
  peg_ratio := emitRound 2 (pegValue prices income)

/-- `self._safe_divide(tax_expense, income_before_tax) if income_before_tax
else 0.21` from `_profitability_metrics` (the `else` branch is the plain
number `0.21`, modelled as `some`). -/
def ratioEffTaxRaw (income : List IncomeStatement) : Option ℚ :=
  let tax_expense := pyOrQ (getLatest income IncomeStatement.incomeTaxExpense) 0
  let income_before_tax := getLatest income IncomeStatement.incomeBeforeTax
  if truthy income_before_tax then safe_divide (some tax_expense) income_before_tax
  else some (21/100)

/-- The effective tax rate that `_profitability_metrics` actually multiplies
into NOPAT: `(eff_tax or 0.21)` — Python truthiness replaces a computed rate
of exactly 0 (and an undefined rate) by the 0.21 default. -/
def ratioEffTaxUsed (income : List IncomeStatement) : ℚ :=
  pyOrQ (ratioEffTaxRaw income) (21/100)

/-- `nopat` from `_profitability_metrics`:
`operating_income * (1 - (eff_tax or 0.21))` when operating income exists. -/
def nopatValue (income : List IncomeStatement) : Option ℚ :=
  match getLatest income IncomeStatement.operatingIncome with
  | some oi => some (oi * (1 - ratioEffTaxUsed income))
  | none => none

/-- `invested_capital = (equity or 0) + total_debt - cash if equity else None`. -/
def investedCapitalValue (balance : List BalanceSheet) : Option ℚ :=
  let equity := getLatest balance BalanceSheet.totalStockholdersEquity
  let total_debt := pyOrQ (getLatest balance BalanceSheet.totalDebt) 0
  let cash := pyOrQ (getLatest balance BalanceSheet.cashAndCashEquivalents) 0
  if truthy equity then some (pyOrQ equity 0 + total_debt - cash) else none

/-- The unrounded ROIC computed inside `_profitability_metrics`. -/
def roicValue (income : List IncomeStatement) (balance : List BalanceSheet) : Option ℚ :=
  safe_divide (nopatValue income) (investedCapitalValue balance)

/-- Output record of `_profitability_metrics`. -/
structure ProfitabilityMetrics where
  gross_margin : Option ℚ
  operating_margin : Option ℚ
  net_margin : Option ℚ
  roe : Option ℚ
  roa : Option ℚ
  roic : Option ℚ
  deriving DecidableEq

/-- `FinancialMetricsAgent._profitability_metrics`.  Only `roic` goes through
the `round(v, 4) if v else None` emission; the margins are raw `safe_divide`
results. -/
def profitability_metrics (income : List IncomeStatement)
    (balance : List BalanceSheet) : ProfitabilityMetrics where
  gross_margin := safe_divide (getLatest income IncomeStatement.grossProfit)
    (getLatest income IncomeStatement.revenue)
  operating_margin := safe_divide (getLatest income IncomeStatement.operatingIncome)
    (getLatest income IncomeStatement.revenue)
  net_margin := safe_divide (getLatest income IncomeStatement.netIncome)
    (getLatest income IncomeStatement.revenue)
  roe := safe_divide (getLatest income IncomeStatement.netIncome)
    (getLatest balance BalanceSheet.totalStockholdersEquity)
  roa := safe_divide (getLatest income IncomeStatement.netIncome)
    (getLatest balance BalanceSheet.totalAssets)
  roic := emitRound 4 (roicValue income balance)

/-!
## TechnicalAnalysisAgent (`technical_analysis_agent.py`)
-/

/-- `TechnicalAnalysisAgent._sma`: mean of the most recent `period` closes. -/
def sma (values : List ℚ) (period : ℕ) : Option ℚ :=
  if values.length < period then none
  else some ((values.take period).sum / period)

/-- `TechnicalAnalysisAgent._ema`.  The source slices
`values[:max(period * 3, len(values))]`, which is always the whole list,
then iterates chronologically (oldest first) from an SMA seed with
multiplier `2/(period+1)`. -/
def ema (values : List ℚ) (period : ℕ) : Option ℚ :=
  if values.length < period then none
  else
    let ordered := (values.take (max (period * 3) values.length)).reverse
    let multiplier : ℚ := 2 / (period + 1)
    some ((ordered.drop period).foldl
      (fun e price => (price - e) * multiplier + e)
      ((ordered.take period).sum / period))

/-- Output record of `compute_moving_averages`. -/
structure MovingAverages where
  sma_20 : Option ℚ
  sma_50 : Option ℚ
  sma_200 : Option ℚ
  ema_12 : Option ℚ
  ema_26 : Option ℚ
  ema_50 : Option ℚ
  deriving DecidableEq

/-- `TechnicalAnalysisAgent.compute_moving_averages`. -/
def compute_moving_averages (closes : List ℚ) : MovingAverages where
  sma_20 := sma closes 20
  sma_50 := sma closes 50
  sma_200 := sma closes 200
  ema_12 := ema closes 12
  ema_26 := ema closes 26
  ema_50 := ema closes 50

/-- Consecutive deltas `ordered[i] - ordered[i-1]` of a chronological list. -/
def pyDeltas (ordered : List ℚ) : List ℚ :=
  (ordered.zip ordered.tail).map (fun ab => ab.2 - ab.1)

/-- `ordered` inside `compute_rsi` (period 14): the most recent
`period*3 + 1 = 43` closes, reversed to chronological order. -/
def rsiOrdered (closes : List ℚ) : List ℚ :=
  (closes.take 43).reverse

/-- Per-step gains (`max(delta, 0)`) inside `compute_rsi`. -/
def rsiGains (closes : List ℚ) : List ℚ :=
  (pyDeltas (rsiOrdered closes)).map (fun d => max d 0)

/-- Per-step losses (`max(-delta, 0)`) inside `compute_rsi`. -/
def rsiLosses (closes : List ℚ) : List ℚ :=
  (pyDeltas (rsiOrdered closes)).map (fun d => max (-d) 0)

/-- Wilder smoothing: seed with the mean of the first `period` entries, then
`avg = (avg*(period-1) + new)/period` for each later entry. -/
def wilderAvg (period : ℕ) (xs : List ℚ) : ℚ :=
  (xs.drop period).foldl
    (fun avg x => (avg * ((period : ℚ) - 1) + x) / period)
    ((xs.take period).sum / period)

/-- `TechnicalAnalysisAgent.compute_rsi` at the (only used) default period 14.
`100.0` when the smoothed average loss is zero, otherwise
`round(100 - 100/(1+rs), 2)`. -/
def compute_rsi (closes : List ℚ) : Option ℚ :=
  if closes.length < 14 + 1 then none
  else if (rsiGains closes).length < 14 then none
  else
    let avg_gain := wilderAvg 14 (rsiGains closes)
    let avg_loss := wilderAvg 14 (rsiLosses closes)
    if avg_loss = 0 then some 100
    else some (roundTo 2 (100 - 100 / (1 + avg_gain / avg_loss)))

/-- The unrounded MACD line `EMA(12) - EMA(26)` (when both are defined). -/
def macdLineValue (closes : List ℚ) : Option ℚ :=
  match ema closes 12, ema closes 26 with
  | some e12, some e26 => some (e12 - e26)
  | _, _ => none

/-- The reconstructed short MACD series used for the signal line:
`EMA(12) - EMA(26)` recomputed on `closes[i:]` for
`i in range(min(35, len(closes) - 26))`. -/
def macdSeries (closes : List ℚ) : List ℚ :=
  (List.range (min 35 (closes.length - 26))).filterMap
    (fun i =>
      match ema (closes.drop i) 12, ema (closes.drop i) 26 with
      | some a, some b => some (a - b)
      | _, _ => none)

/-- The unrounded signal line: `EMA(9)` of the short MACD series when it has
at least 9 entries. -/
def signalLineValue (closes : List ℚ) : Option ℚ :=
  match macdLineValue closes with
  | none => none
  | some _ =>
    if (macdSeries closes).length ≥ 9 then ema (macdSeries closes) 9 else none

/-- The unrounded MACD histogram: MACD line minus signal line. -/
def macdHistogramValue (closes : List ℚ) : Option ℚ :=
  match macdLineValue closes, signalLineValue closes with
  | some m, some s => some (m - s)
  | _, _ => none

/-- Output record of `compute_macd`. -/
structure MacdResult where
  macd_line : Option ℚ
  signal_line : Option ℚ
  macd_histogram : Option ℚ
  deriving DecidableEq

/-- `TechnicalAnalysisAgent.compute_macd`.  All three values are emitted via
`round(v, 4) if v else None`, so an exact-zero value becomes `None`. -/
def compute_macd (closes : List ℚ) : MacdResult where
  macd_line := emitRound 4 (macdLineValue closes)
  signal_line := emitRound 4 (signalLineValue closes)
  macd_histogram := emitRound 4 (macdHistogramValue closes)

/-- Exact square root on ℚ for the embedding of `math.sqrt`: exact whenever
the argument is a square of a rational (in particular `ratSqrt 0 = 0`, the
only case the claims exercise); an approximation otherwise. -/
def ratSqrt (q : ℚ) : ℚ :=
  (Int.ofNat (Nat.sqrt q.num.toNat) : ℚ) / (Nat.sqrt q.den : ℚ)

/-- The Bollinger middle band: SMA over the most recent 20 closes. -/
def bbMiddleValue (closes : List ℚ) : ℚ :=
  (closes.take 20).sum / 20

/-- The Bollinger standard deviation: **population** std-dev (divide by N)
over the most recent 20 closes. -/
def bbStdValue (closes : List ℚ) : ℚ :=
  ratSqrt (((closes.take 20).map (fun x => (x - bbMiddleValue closes) ^ 2)).sum / 20)

/-- `bandwidth = ((upper - lower) / middle) * 100 if middle else None`. -/
def bbBandwidthValue (closes : List ℚ) : Option ℚ :=
  let middle := bbMiddleValue closes
  let upper := middle + 2 * bbStdValue closes
  let lower := middle - 2 * bbStdValue closes
  if middle = 0 then none else some ((upper - lower) / middle * 100)

/-- Output record of `compute_bollinger_bands`. -/
structure BollingerResult where
  bb_upper : Option ℚ
  bb_middle : Option ℚ
  bb_lower : Option ℚ
  bb_bandwidth : Option ℚ
  deriving DecidableEq

/-- `TechnicalAnalysisAgent.compute_bollinger_bands` (period 20, 2σ).
Upper/middle/lower are always rounded; the bandwidth goes through
`round(v, 2) if v else None`, so an exact-zero bandwidth becomes `None`. -/
def compute_bollinger_bands (closes : List ℚ) : BollingerResult :=
  if closes.length < 20 then
    ⟨none, none, none, none⟩
  else
    let middle := bbMiddleValue closes
    let std_dev := bbStdValue closes
    ⟨some (roundTo 2 (middle + 2 * std_dev)),
     some (roundTo 2 middle),
     some (roundTo 2 (middle - 2 * std_dev)),
     emitRound 2 (bbBandwidthValue closes)⟩

/-!
## RiskAssessmentAgent (`risk_assessment_agent.py`)
-/

/-- `RiskAssessmentAgent._daily_returns`: simple percentage change on
chronologically ordered closes, skipping steps whose prior close is zero. -/
def daily_returns (closes : List ℚ) : List ℚ :=
  let ordered := closes.reverse
  (ordered.zip ordered.tail).filterMap
    (fun ab => if ab.1 = 0 then none else some ((ab.2 - ab.1) / ab.1))

/-- `RiskAssessmentAgent._mean` (`0.0` for an empty list). -/
def listMean (values : List ℚ) : ℚ :=
  if values.isEmpty then 0 else values.sum / values.length

/-- `RiskAssessmentAgent._std`: **sample** standard deviation (divide by
N−1); `0.0` when fewer than two values.  `math.sqrt` is modelled by
`ratSqrt`. -/
def listStd (values : List ℚ) : ℚ :=
  if values.length < 2 then 0
  else ratSqrt ((values.map (fun x => (x - listMean values) ^ 2)).sum / (values.length - 1))

/-- `RiskAssessmentAgent.compute_volatility`: `(daily, annual)` volatility,
undefined below 20 returns.  Annualization multiplies by `math.sqrt(252)`. -/
def compute_volatility (returns : List ℚ) : Option ℚ × Option ℚ :=
  if returns.length < 20 then (none, none)
  else
    let daily_vol := listStd returns
    (some (roundTo 6 daily_vol), some (roundTo 4 (daily_vol * ratSqrt 252)))

/-- `RiskAssessmentAgent.compute_sharpe_ratio`. -/
def compute_sharpe_ratio (returns : List ℚ) : Option ℚ :=
  if returns.length < 60 then none
  else
    let mean_daily := listMean returns
    let std_daily := listStd returns
    if std_daily = 0 then none
    else some (roundTo 3 ((mean_daily - (4/100) / 252) / std_daily * ratSqrt 252))

/-- `RiskAssessmentAgent.compute_sortino_ratio`. -/
def compute_sortino_ratio (returns : List ℚ) : Option ℚ :=
  if returns.length < 60 then none
  else
    let daily_rf : ℚ := (4/100) / 252
    let mean_daily := listMean returns
    let downside := returns.filter (fun r => r < daily_rf)
    if downside.isEmpty then none
    else
      let downside_std := listStd downside
      if downside_std = 0 then none
      else some (roundTo 3 ((mean_daily - daily_rf) / downside_std * ratSqrt 252))

/-- `RiskAssessmentAgent.compute_max_drawdown`: `(max_drawdown,
max_drawdown_pct)`; single forward pass tracking the running peak.
Undefined below 5 closes. -/
def compute_max_drawdown (closes : List ℚ) : Option ℚ × Option ℚ :=
  if closes.length < 5 then (none, none)
  else
    match closes.reverse with
    | [] => (none, none)
    | h :: t =>
      let final := t.foldl
        (fun st price =>
          let peak := if price > st.1 then price else st.1
          let dd := (peak - price) / peak
          (peak, if dd > st.2 then dd else st.2))
        (h, 0)
      (some (roundTo 4 final.2), some (roundTo 2 (final.2 * 100)))

/-- `RiskAssessmentAgent.compute_beta`: passed through from the profile. -/
def compute_beta (profile : Option Profile) : Option ℚ :=
  match profile with
  | some pr => pr.beta.map (roundTo 3)
  | none => none

/-- `RiskAssessmentAgent.compute_var` (95% confidence): `(historical,
parametric)` VaR, both as percentages; undefined below 60 returns. -/
def compute_var (returns : List ℚ) : Option ℚ × Option ℚ :=
  if returns.length < 60 then (none, none)
  else
    let sorted := returns.insertionSort (· ≤ ·)
    let index := (⌊(1 - 95/100 : ℚ) * returns.length⌋).toNat
    let hist_var := sorted.getD index 0
    let mean_r := listMean returns
    let std_r := listStd returns
    (some (roundTo 3 (hist_var * 100)),
     some (roundTo 3 ((mean_r - (329/200) * std_r) * 100)))

/-- `RiskAssessmentAgent.compute_risk_adjusted_return`. -/
def compute_risk_adjusted_return (closes returns : List ℚ) : Option ℚ :=
  if closes.length < 252 ∨ returns.length < 252 then none
  else
    let ordered := closes.reverse
    let annual_return := (ordered.getLastD 0 - ordered.headD 0) / ordered.headD 0
    let std_daily := listStd returns
    let annual_vol := if std_daily = 0 then 0 else std_daily * ratSqrt 252
    if annual_vol = 0 then none
    else some (roundTo 3 (annual_return / annual_vol))

/-- The categorical risk rating values. -/
inductive RiskRating where
  | low
  | moderate
  | high
  | very_high
  | unknown
  deriving DecidableEq

/-- Volatility contribution to the risk score (`>50%→+3, >30%→+2, >15%→+1`). -/
def volScore (annual_vol : Option ℚ) : ℕ :=
  match annual_vol with
  | none => 0
  | some x => if x > 1/2 then 3 else if x > 3/10 then 2 else if x > 3/20 then 1 else 0

/-- Max-drawdown-percentage contribution (`>50→+3, >30→+2, >15→+1`). -/
def ddScore (max_dd_pct : Option ℚ) : ℕ :=
  match max_dd_pct with
  | none => 0
  | some x => if x > 50 then 3 else if x > 30 then 2 else if x > 15 then 1 else 0

/-- Beta contribution (`>1.5→+2, >1.0→+1`). -/
def betaScore (beta : Option ℚ) : ℕ :=
  match beta with
  | none => 0
  | some x => if x > 3/2 then 2 else if x > 1 then 1 else 0

/-- `RiskAssessmentAgent._risk_rating`: accumulated integer score mapped to
a category (`≥6 very_high, ≥4 high, ≥2 moderate, else low`). -/
def risk_rating (annual_vol max_dd_pct beta : Option ℚ) : RiskRating :=
  let score := volScore annual_vol + ddScore max_dd_pct + betaScore beta
  if score ≥ 6 then .very_high
  else if score ≥ 4 then .high
  else if score ≥ 2 then .moderate
  else .low

/-- The order `low < moderate < high < very_high` used by the spec
(`unknown` is never produced by `_risk_rating`). -/
def ratingOrd : RiskRating → ℕ
  | .low => 0
  | .moderate => 1
  | .high => 2
  | .very_high => 3
  | .unknown => 4

/-- Output record of `RiskAssessmentAgent.run`: a dict key that is absent
(error branch) or `None` is modelled as `none`. -/
structure RiskResult where
  daily_volatility : Option ℚ := none
  annual_volatility : Option ℚ := none
  sharpe_ratio : Option ℚ := none
  sortino_ratio : Option ℚ := none
  max_drawdown : Option ℚ := none
  max_drawdown_pct : Option ℚ := none
  beta : Option ℚ := none
  var_historical_95 : Option ℚ := none
  var_parametric_95 : Option ℚ := none
  risk_adjusted_return : Option ℚ := none
  risk_rating : RiskRating := .unknown
  error : Option String := none
  deriving DecidableEq

/-- `RiskAssessmentAgent.run`: closes are the truthy `close` values of the
price records; below 30 closes the agent returns only an error marker and
`risk_rating = unknown`. -/
def risk_run (prices : List PriceRecord) (profile : Option Profile) : RiskResult :=
  let closes := prices.filterMap
    (fun p => match p.close with
      | some c => if c = 0 then none else some c
      | none => none)
  if closes.length < 30 then
    { error := some "Insufficient price data for risk analysis",
      risk_rating := .unknown }
  else
    let returns := daily_returns closes
    let volatility := compute_volatility returns
    let max_dd := compute_max_drawdown closes
    let beta := compute_beta profile
    let var := compute_var returns
    { daily_volatility := volatility.1
      annual_volatility := volatility.2
      sharpe_ratio := compute_sharpe_ratio returns
      sortino_ratio := compute_sortino_ratio returns
      max_drawdown := max_dd.1
      max_drawdown_pct := max_dd.2
      beta := beta
      var_historical_95 := var.1
      var_parametric_95 := var.2
      risk_adjusted_return := compute_risk_adjusted_return closes returns
      risk_rating := risk_rating volatility.2 max_dd.2 beta
      error := none }

/-!
## ValuationAgent (`valuation_agent.py`)

Constants: risk-free rate 4%, market return 8%, perpetual growth 2.5%,
default tax rate 21%, default FCF growth 5%, 5 projection years.
-/

/-- The effective tax rate inside `ValuationAgent._calculate_wacc`:
`tax_expense / income_before_tax` when `income_before_tax` is truthy
(defined and nonzero) — **including a computed rate of exactly 0** —
otherwise the 0.21 default.  `tax_expense` is
`income_statement.get("incomeTaxExpense", 0) or 0`. -/
def effTaxWacc (inc : IncomeStatement) : ℚ :=
  match inc.incomeBeforeTax with
  | some b => if b = 0 then 21/100 else pyOrQ inc.incomeTaxExpense 0 / b
  | none => 21/100

/-- `ValuationAgent._calculate_wacc`.  Fails (`None`) when beta or market
cap is falsy, total debt or interest expense is missing, or total capital
is zero.  The caught `TypeError/ZeroDivisionError/IndexError` cannot fire
for numeric-or-missing fields, so the embedding is total. -/
def calculate_wacc (raw : RawData) : Option ℚ :=
  let beta := pget raw.profile Profile.beta
  let market_cap := pyOrOpt (pget raw.profile Profile.marketCap) (pget raw.profile Profile.mktCap)
  let bs := raw.financials.balance_sheet.headD {}
  let inc := raw.financials.income_statement.headD {}
  match beta, market_cap, bs.totalDebt, inc.interestExpense with
  | some b, some mc, some td, some ie =>
    if b = 0 ∨ mc = 0 then none
    else
      let cost_of_equity := 4/100 + b * (8/100 - 4/100)
      let cost_of_debt := if td = 0 then 0 else ie / td
      let after_tax_cost_of_debt := cost_of_debt * (1 - effTaxWacc inc)
      let total_capital := mc + td
      if total_capital = 0 then none
      else some (mc / total_capital * cost_of_equity
        + td / total_capital * after_tax_cost_of_debt)
  | _, _, _, _ => none

/-- `ValuationAgent._project_free_cash_flow`: `(projected 5-year FCF list,
latest FCF)`, or `None` when the cash-flow history is empty or the latest
FCF is falsy.  Growth = mean of at-most-4 period-over-period rates on the
truthy FCF history, clamped to [−20%, +30%], defaulting to 5%. -/
def project_fcf (cash_flow : List CashFlowStatement) : Option (List ℚ × ℚ) :=
  match cash_flow.head? with
  | none => none
  | some c0 =>
    match c0.freeCashFlow with
    | none => none
    | some latest =>
      if latest = 0 then none
      else
        let fcf_history := (cash_flow.take 5).filterMap
          (fun cf => match cf.freeCashFlow with
            | some v => if v = 0 then none else some v
            | none => none)
        let growth_rates := (fcf_history.zip fcf_history.tail).filterMap
          (fun ab => if ab.2 = 0 then none else some ((ab.1 - ab.2) / |ab.2|))
        let avg := if growth_rates.isEmpty then 1/20
          else growth_rates.sum / growth_rates.length
        let g := max (-1/5) (min avg (3/10))
        some ((List.range 5).map (fun year => latest * (1 + g) ^ (year + 1)), latest)

/-- Output record of `ValuationAgent.run`.  A key absent from the returned
dict is `none` (the success dict carries no `error` key; the failure dicts
carry neither `wacc` nor `latest_fcf`). -/
structure ValuationResult where
  dcf_intrinsic_value_per_share : Option ℚ := none
  wacc : Option ℚ := none
  latest_fcf : Option ℚ := none
  error : Option String := none
  deriving DecidableEq

/-- `ValuationAgent.run`: WACC, FCF projection, the `WACC ≤ g` guard,
discounting with Gordon-growth terminal value, and the per-share division
with its shares-outstanding fallback.  Each failure mode returns a distinct
named error string and an undefined intrinsic value. -/
def valuation_run (raw : RawData) : ValuationResult :=
  match calculate_wacc raw with
  | none => { error := some "Could not calculate WACC." }
  | some wacc =>
    match project_fcf raw.financials.cash_flow with
    | none => { error := some "Could not project Free Cash Flow." }
    | some (projected_fcf, latest_fcf) =>
      if wacc ≤ 1/40 then
        { error := some "WACC is less than or equal to perpetual growth rate." }
      else
        let dcf_sum := (projected_fcf.enum.map
          (fun p => p.2 / (1 + wacc) ^ (p.1 + 1))).sum
        let terminal_value := projected_fcf.getLastD 0 * (1 + 1/40) / (wacc - 1/40)
        let intrinsic_value := dcf_sum + terminal_value / (1 + wacc) ^ projected_fcf.length
        let s1 := pget raw.profile Profile.sharesOutstanding
        let shares := if truthy s1 then s1
          else match raw.financials.income_statement.head? with
            | some i => i.weightedAverageShsOut
            | none => s1
        match shares with
        | some n =>
          if n = 0 then { error := some "Shares outstanding not available." }
          else
            { dcf_intrinsic_value_per_share := some (roundTo 2 (intrinsic_value / n))
              wacc := some (roundTo 4 wacc)
              latest_fcf := some latest_fcf }
        | none => { error := some "Shares outstanding not available." }

/-!
## SynthesisReportingAgent (`synthesis_reporting_agent.py`)

`_generate_recommendation` compares the valuation gap against
`self.STRONG_BUY_THRESHOLD`, `self.BUY_THRESHOLD`,
`self.STRONG_SELL_THRESHOLD` and `self.SELL_THRESHOLD` (lines 98–107).
None of these attributes is defined anywhere: not in the class body of
`SynthesisReportingAgent` (which has no `__init__` and no class constants),
and nowhere else in the repository.  The attribute environment is therefore
empty, and CPython raises `AttributeError` at line 98 on every call in
which both the current price and the DCF value are numbers (after possibly
raising `ZeroDivisionError` at line 95 when the current price is 0).
The lookups are modelled through the (empty) attribute table below, and a
raised exception as `Except.error`.
-/

/-- The class/instance attribute `STRONG_BUY_THRESHOLD`: never defined. -/
def STRONG_BUY_THRESHOLD_attr : Option ℚ := none

/-- `SynthesisReportingAgent._generate_recommendation`:
`(recommendation, rationale, confidence)` on success, the raised exception
on failure.  When either the price or the DCF value is not a number it
returns `("hold", insufficient-data rationale, 30)`; when both are numbers
it computes `diff` and then unconditionally hits the undefined
`STRONG_BUY_THRESHOLD` attribute. -/
def generate_recommendation (current_price dcf_value : Option ℚ)
    (_risk_rating : String) (_rsi : Option ℚ) (_trend_signals : List String) :
    Except String (String × String × ℤ) :=
  match current_price, dcf_value with
  | some cp, some _ =>
    if cp = 0 then .error "ZeroDivisionError: division by zero"
    else
      match STRONG_BUY_THRESHOLD_attr with
      | some _ =>
        -- unreachable: the attribute table is empty
        .error "AttributeError"
      | none =>
        .error "AttributeError: 'SynthesisReportingAgent' object has no attribute 'STRONG_BUY_THRESHOLD'"
  | _, _ =>
    .ok ("hold", "Insufficient data for a conclusive valuation‑based recommendation.", 30)

/-!
## Orchestrator (`orchestrator.py`)

`run_analysis` wraps the whole pipeline in one `try/except`: every status
update is persisted **before** the work of its phase, and any exception
sets the status to `failed`.  The job-status sink (`crud.update_job_status`)
is an external collaborator (spec §6) and is modelled as an infallible
trace of the statuses written; `crud.create_report` commits atomically, so
a failing persist leaves no report row.  The fallible phases are modelled
as outcome oracles: the data fetch (network I/O), the five engines, the
synthesis agent (which does raise, see `generate_recommendation`), the
chart-data build, and the report persist.
-/

/-- Job status values (`AnalysisJob.status`; jobs are created as
`pending`). -/
inductive JobStatus where
  | pending
  | gathering_data
  | analyzing
  | generating_report
  | complete
  | failed
  deriving DecidableEq

/-- Outcomes of the fallible steps of one pipeline run.  `fetch` yields the
raw dataset (`none` models a falsy `raw_data`); the other fields model
whether the corresponding phase raises. -/
structure PipelineBehavior where
  fetch : Except Unit (Option RawData)
  analyze : Except Unit Unit
  synthesize : Except Unit Unit
  buildChart : Except Unit Unit
  persistReport : Except Unit Unit

/-- `Orchestrator.run_analysis`, observed through the job-status sink:
returns the list of statuses written (in order) and whether a report row
was persisted.  Mirrors the source control flow: `gathering_data` before
the fetch; `ValueError` when `raw_data` is falsy or lacks a profile;
`analyzing` before the engines; `generating_report` before synthesis; the
report persisted before `complete`; the `except` clause writes `failed`. -/
def run_analysis (b : PipelineBehavior) : List JobStatus × Bool :=
  match b.fetch with
  | .error _ => ([.gathering_data, .failed], false)
  | .ok raw? =>
    match raw? with
    | none => ([.gathering_data, .failed], false)
    | some raw =>
      if raw.profile.isNone then ([.gathering_data, .failed], false)
      else
        match b.analyze with
        | .error _ => ([.gathering_data, .analyzing, .failed], false)
        | .ok _ =>
          match b.synthesize with
          | .error _ => ([.gathering_data, .analyzing, .generating_report, .failed], false)
          | .ok _ =>
            match b.buildChart with
            | .error _ => ([.gathering_data, .analyzing, .generating_report, .failed], false)
            | .ok _ =>
              match b.persistReport with
              | .error _ => ([.gathering_data, .analyzing, .generating_report, .failed], false)
              | .ok _ => ([.gathering_data, .analyzing, .generating_report, .complete], true)

/-- The full status history of a job: created as `pending`, then the
statuses the run writes. -/
def statusTrace (b : PipelineBehavior) : List JobStatus :=
  .pending :: (run_analysis b).1

/-- Whether a report row was persisted by the run. -/
def reportPersisted (b : PipelineBehavior) : Bool :=
  (run_analysis b).2

/-- Some phase of the run raises an uncaught condition: the fetch fails,
the fetched dataset is falsy or lacks a profile (`ValueError`), or an
engine / synthesis / chart-build / report-persist step raises. -/
def raisesAnyPhase (b : PipelineBehavior) : Prop :=
  (∃ e, b.fetch = .error e)
  ∨ b.fetch = .ok none
  ∨ (∃ raw, b.fetch = .ok (some raw) ∧ raw.profile = none)
  ∨ (∃ e, b.analyze = .error e)
  ∨ (∃ e, b.synthesize = .error e)
  ∨ (∃ e, b.buildChart = .error e)
  ∨ (∃ e, b.persistReport = .error e)

/-!
## Concrete inputs used by witnesses and counterexamples
-/

/-- 20 identical closes of 100, newest first (spec scenario A). -/
def c3closes : List ℚ := List.replicate 20 100

/-- The same 20-close series as price records. -/
def c3prices : List PriceRecord := List.replicate 20 { close := some 100 }

/-- WACC-input raw dataset with beta −1 and zero debt: WACC evaluates to 0,
below the 2.5% perpetual growth constant, while the FCF projection
succeeds. -/
def c4raw : RawData where
  financials :=
    { income_statement := [{ interestExpense := some 0 }]
      balance_sheet := [{ totalDebt := some 0 }]
      cash_flow := [{ freeCashFlow := some 100 }] }
  prices := []
  profile := some { beta := some (-1), marketCap := some 100 }

/-- Newest-first closes whose chronological order is
`[100, 103, 97, 97, …, 97]` (15 observations): average gain 3/14, average
loss 3/7, so the unrounded RSI is 100/3. -/
def c5badCloses : List ℚ :=
  [97, 97, 97, 97, 97, 97, 97, 97, 97, 97, 97, 97, 97, 103, 100]

/-- A strictly increasing (chronologically) 15-observation series, newest
first: every delta is a gain, so the average loss is 0. -/
def c5upCloses : List ℚ :=
  [15, 14, 13, 12, 11, 10, 9, 8, 7, 6, 5, 4, 3, 2, 1]

/-- Latest income statement with operating income 100, tax expense 0 and
income before tax 50: the computed effective tax rate is exactly 0. -/
def c8income : List IncomeStatement :=
  [{ operatingIncome := some 100, incomeTaxExpense := some 0,
     incomeBeforeTax := some 50 }]

/-- Income statement with tax expense 1 and income before tax 4: a nonzero
effective tax rate of 1/4. -/
def c8inc : IncomeStatement :=
  { incomeTaxExpense := some 1, incomeBeforeTax := some 4 }

/-- A single price record with close 100. -/
def c9prices : List PriceRecord := [{ close := some 100 }]

/-- EPS fell from 2 (prior) to 1 (latest): EPS growth −1/2, P/E 100. -/
def c9income : List IncomeStatement := [{ eps := some 1 }, { eps := some 2 }]

/-- A price of exactly 0 with defined statement data: P/E, P/B, P/S and PEG
all compute to exactly 0. -/
def c10prices : List PriceRecord := [{ close := some 0 }]

/-- Statement data under which P/E, P/S, PEG, EV/EBITDA and ROIC all
compute to exactly 0 (EPS 2 vs prior 1 makes the growth truthy). -/
def c10income : List IncomeStatement :=
  [{ eps := some 2, weightedAverageShsOut := some 5, revenue := some 10,
     ebitda := some 7, operatingIncome := some 0, incomeBeforeTax := some 50,
     incomeTaxExpense := some 10 },
   { eps := some 1 }]

/-- Balance sheet making the enterprise value exactly 0
(market cap 5 + debt 0 − cash 5). -/
def c10balance : List BalanceSheet :=
  [{ totalStockholdersEquity := some 10, totalDebt := some 0,
     cashAndCashEquivalents := some 5 }]

/-- Profile with market cap 5. -/
def c10profile : Option Profile := some { marketCap := some 5 }

/-- 40 identical closes: MACD line, signal line, histogram and Bollinger
bandwidth all compute to exactly 0. -/
def c10closes : List ℚ := List.replicate 40 100

/-- Behaviour of one pipeline run in which every phase succeeds but the
fetched dataset has no profile. -/
def c2behavior : PipelineBehavior where
  fetch := .ok (some {})
  analyze := .ok ()
  synthesize := .ok ()
  buildChart := .ok ()
  persistReport := .ok ()

/-!
## Theorems

General lemmas about the rounding embedding, then one theorem (plus
witness / counterexample where required) per claim.
-/

theorem roundHalfEven_ge_floor (y : ℚ) : ⌊y⌋ ≤ roundHalfEven y := by
  unfold roundHalfEven
  split_ifs <;> omega

theorem roundHalfEven_le_floor_add_one (y : ℚ) : roundHalfEven y ≤ ⌊y⌋ + 1 := by
  unfold roundHalfEven
  split_ifs <;> omega

theorem roundTo_nonneg (n : ℕ) (x : ℚ) (hx : 0 ≤ x) : 0 ≤ roundTo n x := by
  unfold roundTo
  have h1 : (0 : ℤ) ≤ ⌊x * 10 ^ n⌋ := by
    apply Int.le_floor.mpr
    push_cast
    positivity
  have h2 := roundHalfEven_ge_floor (x * 10 ^ n)
  have h3 : (0 : ℚ) ≤ (roundHalfEven (x * 10 ^ n) : ℚ) := by exact_mod_cast le_trans h1 h2
  positivity

theorem roundTo_le_of_lt (n : ℕ) (x B : ℚ) (hB : x < B) (hBint : ∃ z : ℤ, (z : ℚ) = B * 10 ^ n) :
    roundTo n x ≤ B := by
  obtain ⟨z, hz⟩ := hBint
  have hpow : (0 : ℚ) < 10 ^ n := by positivity
  have hxz : x * 10 ^ n < (z : ℚ) := by
    rw [hz]; exact (mul_lt_mul_right hpow).mpr hB
  have hfl : ⌊x * 10 ^ n⌋ < z := by
    have := Int.floor_le (x * 10 ^ n)
    by_contra hcon
    push_neg at hcon
    have : (z : ℚ) ≤ ⌊x * 10 ^ n⌋ := by exact_mod_cast hcon
    linarith
  have h2 := roundHalfEven_le_floor_add_one (x * 10 ^ n)
  have hle : roundHalfEven (x * 10 ^ n) ≤ z := by omega
  unfold roundTo
  rw [div_le_iff₀ hpow, ← hz]
  exact_mod_cast hle

/-- C7: `safe_divide(n, d)` is `None` whenever `n` is undefined, `d` is
undefined, or `d = 0`, and is the exact quotient `n/d` otherwise; being a
total Lean function, it raises no exception for any operands. -/
theorem C7_safe_divide_spec (n d : Option ℚ) :
    ((n = none ∨ d = none ∨ d = some 0) → safe_divide n d = none) ∧
    (∀ a b : ℚ, n = some a → d = some b → b ≠ 0 → safe_divide n d = some (a / b)) := by
  constructor
  · rintro (rfl | rfl | rfl)
    · cases d <;> rfl
    · cases n <;> rfl
    · cases n <;> simp [safe_divide]
  · rintro a b rfl rfl hb
    simp [safe_divide, hb]

/-- Witness for C7 at concrete operands: division by zero is undefined and
`3 / 2` is the exact quotient. -/
theorem C7_witness :
    safe_divide (some 3) (some 0) = none ∧ safe_divide (some 3) (some 2) = some (3 / 2) :=
  ⟨(C7_safe_divide_spec (some 3) (some 0)).1 (Or.inr (Or.inr rfl)),
   (C7_safe_divide_spec (some 3) (some 2)).2 3 2 rfl rfl (by norm_num)⟩

/-- C1 (code bug): at price 100 and intrinsic value 130 the recommendation
derivation raises `AttributeError` (the threshold class attributes are
never defined), instead of returning `strong buy`; the undefined-input
branch does return `hold` with the insufficient-data rationale and
confidence 30. -/
theorem C1_recommendation_attribute_bug :
    generate_recommendation (some 100) (some 130) "low" none [] =
      .error "AttributeError: 'SynthesisReportingAgent' object has no attribute 'STRONG_BUY_THRESHOLD'" ∧
    generate_recommendation none (some 130) "low" none [] =
      .ok ("hold", "Insufficient data for a conclusive valuation‑based recommendation.", 30) := by
  constructor <;> rfl


/-- C4: whenever the WACC computation and the FCF projection both succeed
and the WACC is at most the perpetual growth constant 2.5%, `run` returns
the early-exit record: undefined intrinsic value, the named
WACC-vs-growth error string, and no terminal value, WACC or latest-FCF
fields. -/
theorem C4_wacc_le_growth_guard (raw : RawData) (w : ℚ) (proj : List ℚ) (latest : ℚ)
    (hw : calculate_wacc raw = some w)
    (hf : project_fcf raw.financials.cash_flow = some (proj, latest))
    (hle : w ≤ 1/40) :
    valuation_run raw =
      { dcf_intrinsic_value_per_share := none, wacc := none, latest_fcf := none,
        error := some "WACC is less than or equal to perpetual growth rate." } := by
  unfold valuation_run
  rw [hw, hf]
  simp only [hle, if_true]

/-- Witness for C4: a concrete dataset (beta −1, market cap 100, zero debt,
FCF history `[100]`) on which the WACC evaluates to 0 ≤ 2.5% and the
projection succeeds with default 5% growth. -/
theorem C4_witness :
    valuation_run c4raw =
      { dcf_intrinsic_value_per_share := none, wacc := none, latest_fcf := none,
        error := some "WACC is less than or equal to perpetual growth rate." } :=
  C4_wacc_le_growth_guard c4raw 0
    [105, 441/4, 9261/80, 194481/1600, 4084101/32000] 100
    (by norm_num [calculate_wacc, c4raw, pget, pyOrOpt, truthy, effTaxWacc])
    (by unfold project_fcf c4raw
        simp only [List.head?, List.take, List.filterMap_cons, List.filterMap_nil, List.zip,
          List.zipWith, List.tail, List.isEmpty, List.sum_cons, List.sum_nil, List.length]
        norm_num
        rw [show List.range 5 = [0, 1, 2, 3, 4] from by decide]
        norm_num)
    (by norm_num)

/-- C8 (amended): in the ValuationEngine the effective tax rate is
`tax_expense / income_before_tax` whenever income-before-tax is defined and
nonzero — including a computed rate of exactly 0 — and 0.21 otherwise; in
the RatioEngine's NOPAT, however, `(eff_tax or 0.21)` additionally replaces
a computed rate of **exactly 0** by the 0.21 default, so `tax/ibt` is used
only when it is nonzero. -/
theorem C8_effective_tax_rate (inc : IncomeStatement) (income : List IncomeStatement) (b : ℚ) :
    (inc.incomeBeforeTax = some b → b ≠ 0 →
      effTaxWacc inc = pyOrQ inc.incomeTaxExpense 0 / b) ∧
    ((inc.incomeBeforeTax = none ∨ inc.incomeBeforeTax = some 0) →
      effTaxWacc inc = 21/100) ∧
    (getLatest income IncomeStatement.incomeBeforeTax = some b → b ≠ 0 →
      ratioEffTaxUsed income =
        (if pyOrQ (getLatest income IncomeStatement.incomeTaxExpense) 0 / b = 0
         then 21/100
         else pyOrQ (getLatest income IncomeStatement.incomeTaxExpense) 0 / b)) ∧
    ((getLatest income IncomeStatement.incomeBeforeTax = none ∨
      getLatest income IncomeStatement.incomeBeforeTax = some 0) →
      ratioEffTaxUsed income = 21/100) := by
  refine ⟨?_, ?_, ?_, ?_⟩
  · intro hb hbne
    unfold effTaxWacc
    rw [hb]
    simp [hbne]
  · rintro (h | h) <;> simp [effTaxWacc, h]
  · intro hb hbne
    unfold ratioEffTaxUsed ratioEffTaxRaw
    rw [hb]
    simp [truthy, hbne, safe_divide, pyOrQ]
  · rintro (h | h) <;>
      · unfold ratioEffTaxUsed ratioEffTaxRaw
        rw [h]
        simp [truthy, pyOrQ]

/-- Counterexample for C8: tax expense 0 with income-before-tax 50 gives a
computed effective rate of exactly 0, but the RatioEngine's NOPAT uses the
0.21 default instead of the computed 0. -/
theorem C8_counterexample :
    ratioEffTaxUsed c8income = 21/100 ∧
    pyOrQ (getLatest c8income IncomeStatement.incomeTaxExpense) 0 / 50 = 0 ∧
    (21/100 : ℚ) ≠ 0 := by
  refine ⟨?_, ?_, by norm_num⟩
  · norm_num [ratioEffTaxUsed, ratioEffTaxRaw, c8income, getLatest, truthy, safe_divide, pyOrQ]
  · norm_num [c8income, getLatest, pyOrQ]

/-- Witness for C8 at a nonzero rate (tax 1, income before tax 4): both
engines use the computed rate 1/4. -/
theorem C8_witness :
    effTaxWacc c8inc = pyOrQ c8inc.incomeTaxExpense 0 / 4 ∧
    ratioEffTaxUsed [c8inc] =
      (if pyOrQ (getLatest [c8inc] IncomeStatement.incomeTaxExpense) 0 / 4 = 0
       then 21/100
       else pyOrQ (getLatest [c8inc] IncomeStatement.incomeTaxExpense) 0 / 4) :=
  ⟨(C8_effective_tax_rate c8inc [c8inc] 4).1 rfl (by norm_num),
   (C8_effective_tax_rate c8inc [c8inc] 4).2.2.1 rfl (by norm_num)⟩

/-- C9 (amended): the PEG is undefined exactly when the EPS growth rate is
undefined or zero or the P/E is undefined; whenever the growth rate is a
**nonzero** value g (of either sign) and the P/E is p, the PEG is
`p / (g × 100)` — a strictly negative growth rate therefore yields a
defined, negative PEG, not an undefined one. -/
theorem C9_peg (prices : List PriceRecord) (income : List IncomeStatement) :
    (∀ g p : ℚ, epsGrowthValue income = some g → g ≠ 0 →
      peValue prices income = some p →
      pegValue prices income = some (p / (g * 100))) ∧
    ((epsGrowthValue income = none ∨ epsGrowthValue income = some 0 ∨
      peValue prices income = none) →
      pegValue prices income = none) := by
  constructor
  · intro g p hg hgne hp
    unfold pegValue
    rw [hg, hp]
    have h100 : g * 100 ≠ 0 := mul_ne_zero hgne (by norm_num)
    simp [hgne, safe_divide, h100]
  · rintro (hg | hg | hp)
    · unfold pegValue
      rw [hg]
      cases peValue prices income <;> rfl
    · unfold pegValue
      rw [hg]
      simp only [if_pos rfl]
      cases peValue prices income <;> rfl
    · unfold pegValue
      rw [hp]
      rfl

/-- Counterexample for C9: EPS growth −1/2 is strictly negative, yet the
emitted PEG is the defined value −2 (the claim requires it to be
undefined). -/
theorem C9_counterexample :
    epsGrowthValue c9income = some (-(1/2)) ∧
    (valuation_metrics c9prices c9income [] none).peg_ratio = some (-2) ∧
    (some (-2) : Option ℚ) ≠ none := by
  refine ⟨?_, ?_, by simp⟩
  · norm_num [epsGrowthValue, growth_rate, getLatest, getPrev, c9income]
  · norm_num [valuation_metrics, emitRound, pegValue, peValue, epsGrowthValue, growth_rate,
      getLatest, getPrev, c9income, c9prices, currentPrice, safe_divide, roundTo, roundHalfEven]

/-- Witness for C9 at the concrete negative-growth input: PEG
`100 / (−1/2 × 100) = −2`, a defined value. -/
theorem C9_witness :
    pegValue c9prices c9income = some (100 / (-(1/2) * 100)) :=
  (C9_peg c9prices c9income).1 (-(1/2)) 100
    (by norm_num [epsGrowthValue, growth_rate, getLatest, getPrev, c9income])
    (by norm_num)
    (by norm_num [peValue, safe_divide, currentPrice, getLatest, c9prices, c9income])

theorem foldl_ema_replicate (m c : ℚ) (n : ℕ) :
    List.foldl (fun e price => (price - e) * m + e) c (List.replicate n c) = c := by
  induction n with
  | zero => rfl
  | succ k ih =>
    rw [List.replicate_succ, List.foldl_cons]
    simpa using ih

theorem ema_replicate (N p : ℕ) (c : ℚ) (hp : p ≠ 0) (h : p ≤ N) :
    ema (List.replicate N c) p = some c := by
  unfold ema
  simp only [List.length_replicate]
  rw [if_neg (by omega : ¬ N < p)]
  simp only [List.take_replicate, List.reverse_replicate, List.drop_replicate,
    List.sum_replicate, nsmul_eq_mul]
  rw [min_eq_right (le_max_right (p * 3) N), min_eq_left h]
  rw [mul_div_cancel_left₀ c (by exact_mod_cast hp : ((p : ℚ) ≠ 0))]
  exact congrArg some (foldl_ema_replicate _ c _)

theorem macdLine_c10 : macdLineValue c10closes = some 0 := by
  unfold macdLineValue c10closes
  rw [ema_replicate 40 12 100 (by norm_num) (by norm_num),
    ema_replicate 40 26 100 (by norm_num) (by norm_num)]
  norm_num

theorem macdSeries_c10 :
    macdSeries c10closes = [0, 0, 0, 0, 0, 0, 0, 0, 0, 0, 0, 0, 0, 0] := by
  unfold macdSeries c10closes
  rw [show min 35 ((List.replicate 40 (100:ℚ)).length - 26) = 14 by simp]
  rw [show List.range 14 = [0, 1, 2, 3, 4, 5, 6, 7, 8, 9, 10, 11, 12, 13] from by decide]
  simp [List.drop_replicate, ema_replicate, -List.reduceReplicate]

theorem signalLine_c10 : signalLineValue c10closes = some 0 := by
  unfold signalLineValue
  rw [macdLine_c10, macdSeries_c10]
  norm_num [ema]

theorem hist_c10 : macdHistogramValue c10closes = some 0 := by
  unfold macdHistogramValue
  rw [macdLine_c10, signalLine_c10]
  norm_num

theorem bb_c10 : bbBandwidthValue c10closes = some 0 := by
  unfold bbBandwidthValue bbStdValue bbMiddleValue c10closes
  simp only [List.take_replicate, List.map_replicate, List.sum_replicate, nsmul_eq_mul,
    min_eq_left (by norm_num : (20:ℕ) ≤ 40)]
  norm_num [ratSqrt, Nat.sqrt]

/-- C10: at the public interface, each of `pe_ratio`, `pb_ratio`,
`ps_ratio`, `ev_ebitda`, `peg_ratio`, `roic`, `macd_line`, `signal_line`,
`macd_histogram` and `bb_bandwidth` is emitted as `None` whenever its
computed value is exactly 0 (the `round(v, n) if v else None` idiom), so a
consumer cannot distinguish a true zero from missing data. -/
theorem C10_zero_is_none (prices : List PriceRecord) (income : List IncomeStatement)
    (balance : List BalanceSheet) (profile : Option Profile) (closes : List ℚ) :
    (peValue prices income = some 0 →
      (valuation_metrics prices income balance profile).pe_ratio = none) ∧
    (pbValue prices income balance = some 0 →
      (valuation_metrics prices income balance profile).pb_ratio = none) ∧
    (psValue prices income = some 0 →
      (valuation_metrics prices income balance profile).ps_ratio = none) ∧
    (evEbitdaValue income balance profile = some 0 →
      (valuation_metrics prices income balance profile).ev_ebitda = none) ∧
    (pegValue prices income = some 0 →
      (valuation_metrics prices income balance profile).peg_ratio = none) ∧
    (roicValue income balance = some 0 →
      (profitability_metrics income balance).roic = none) ∧
    (macdLineValue closes = some 0 →
      (compute_macd closes).macd_line = none) ∧
    (signalLineValue closes = some 0 →
      (compute_macd closes).signal_line = none) ∧
    (macdHistogramValue closes = some 0 →
      (compute_macd closes).macd_histogram = none) ∧
    (bbBandwidthValue closes = some 0 →
      (compute_bollinger_bands closes).bb_bandwidth = none) := by
  refine ⟨?_, ?_, ?_, ?_, ?_, ?_, ?_, ?_, ?_, ?_⟩
  all_goals intro h
  · simp [valuation_metrics, emitRound, h]
  · simp [valuation_metrics, emitRound, h]
  · simp [valuation_metrics, emitRound, h]
  · simp [valuation_metrics, emitRound, h]
  · simp [valuation_metrics, emitRound, h]
  · simp [profitability_metrics, emitRound, h]
  · simp [compute_macd, emitRound, h]
  · simp [compute_macd, emitRound, h]
  · simp [compute_macd, emitRound, h]
  · by_cases hl : closes.length < 20 <;>
      simp [compute_bollinger_bands, hl, emitRound, h]

/-- Witness for C10: concrete inputs on which all ten metrics compute to
exactly 0 (price 0 for the ratios; EV = 0; operating income 0; 40
identical closes for MACD and Bollinger) and every one is emitted as
`None`. -/
theorem C10_witness :
    (valuation_metrics c10prices c10income c10balance c10profile).pe_ratio = none ∧
    (valuation_metrics c10prices c10income c10balance c10profile).pb_ratio = none ∧
    (valuation_metrics c10prices c10income c10balance c10profile).ps_ratio = none ∧
    (valuation_metrics c10prices c10income c10balance c10profile).ev_ebitda = none ∧
    (valuation_metrics c10prices c10income c10balance c10profile).peg_ratio = none ∧
    (profitability_metrics c10income c10balance).roic = none ∧
    (compute_macd c10closes).macd_line = none ∧
    (compute_macd c10closes).signal_line = none ∧
    (compute_macd c10closes).macd_histogram = none ∧
    (compute_bollinger_bands c10closes).bb_bandwidth = none := by
  obtain ⟨h1, h2, h3, h4, h5, h6, h7, h8, h9, h10⟩ :=
    C10_zero_is_none c10prices c10income c10balance c10profile c10closes
  refine ⟨h1 ?_, h2 ?_, h3 ?_, h4 ?_, h5 ?_, h6 ?_,
    h7 macdLine_c10, h8 signalLine_c10, h9 hist_c10, h10 bb_c10⟩
  · norm_num [peValue, safe_divide, currentPrice, getLatest, c10prices, c10income]
  · norm_num [pbValue, safe_divide, currentPrice, getLatest, c10prices, c10income, c10balance]
  · norm_num [psValue, safe_divide, currentPrice, getLatest, c10prices, c10income]
  · norm_num [evEbitdaValue, evValue, safe_divide, getLatest, pget, truthy, pyOrQ,
      c10income, c10balance, c10profile]
  · norm_num [pegValue, peValue, epsGrowthValue, growth_rate, safe_divide, currentPrice,
      getLatest, getPrev, c10prices, c10income]
  · norm_num [roicValue, nopatValue, investedCapitalValue, ratioEffTaxUsed, ratioEffTaxRaw,
      safe_divide, getLatest, truthy, pyOrQ, c10income, c10balance]

theorem bb_c3 : bbBandwidthValue c3closes = some 0 := by
  unfold bbBandwidthValue bbStdValue bbMiddleValue c3closes
  simp only [List.take_replicate, List.map_replicate, List.sum_replicate, nsmul_eq_mul,
    min_eq_left (by norm_num : (20:ℕ) ≤ 20)]
  norm_num [ratSqrt, Nat.sqrt]

/-- Counterexample for C3: on exactly 20 identical closes of 100, the
emitted Bollinger bandwidth is `None` (not 0), and the RiskEngine —
requiring at least 30 closes — reports no volatility at all (not 0). -/
theorem C3_counterexample :
    (compute_bollinger_bands c3closes).bb_bandwidth = none ∧
    (risk_run c3prices none).annual_volatility = none ∧
    (none : Option ℚ) ≠ some 0 := by
  refine ⟨?_, ?_, by simp⟩
  · have hbw := bb_c3
    have hlen : ¬ (c3closes.length < 20) := by norm_num [c3closes]
    simp [compute_bollinger_bands, hlen, emitRound, hbw]
  · unfold risk_run c3prices
    norm_num

/-- C3 (amended): on exactly 20 identical closes of 100 the TechnicalEngine
returns SMA(20) = 100 and a Bollinger middle band of 100; the computed
bandwidth is exactly 0 but is **emitted as undefined** (zero is coerced to
`None` by truthiness); and the RiskEngine, which requires at least 30
closes, returns only its insufficient-data error with
`risk_rating = unknown`, so volatility, Sharpe and Sortino are all
undefined (absent), not 0. -/
theorem C3_amended_scenario :
    sma c3closes 20 = some 100 ∧
    (compute_moving_averages c3closes).sma_20 = some 100 ∧
    (compute_bollinger_bands c3closes).bb_middle = some 100 ∧
    bbBandwidthValue c3closes = some 0 ∧
    (compute_bollinger_bands c3closes).bb_bandwidth = none ∧
    risk_run c3prices none =
      { error := some "Insufficient price data for risk analysis",
        risk_rating := .unknown } := by
  have hsma : sma c3closes 20 = some 100 := by
    unfold sma c3closes
    simp only [List.length_replicate, List.take_replicate, List.sum_replicate, nsmul_eq_mul,
      min_eq_left (le_refl 20)]
    norm_num
  have hlen : ¬ (c3closes.length < 20) := by norm_num [c3closes]
  refine ⟨hsma, ?_, ?_, bb_c3, ?_, ?_⟩
  · simpa [compute_moving_averages] using hsma
  · have hmid : bbMiddleValue c3closes = 100 := by
      unfold bbMiddleValue c3closes
      simp only [List.take_replicate, List.sum_replicate, nsmul_eq_mul,
        min_eq_left (le_refl 20)]
      norm_num
    simp [compute_bollinger_bands, hlen, hmid]
    norm_num [roundTo, roundHalfEven]
  · simp [compute_bollinger_bands, hlen, emitRound, bb_c3]
  · unfold risk_run c3prices
    norm_num

theorem volScore_mono (v₁ v₂ : ℚ) (h : v₁ ≤ v₂) : volScore (some v₁) ≤ volScore (some v₂) := by
  unfold volScore
  dsimp only
  split_ifs <;> first | omega | linarith

theorem ddScore_mono (d₁ d₂ : ℚ) (h : d₁ ≤ d₂) : ddScore (some d₁) ≤ ddScore (some d₂) := by
  unfold ddScore
  dsimp only
  split_ifs <;> first | omega | linarith

theorem betaScore_mono (b₁ b₂ : ℚ) (h : b₁ ≤ b₂) : betaScore (some b₁) ≤ betaScore (some b₂) := by
  unfold betaScore
  dsimp only
  split_ifs <;> first | omega | linarith

theorem ratingOrd_score_mono (s₁ s₂ : ℕ) (h : s₁ ≤ s₂) :
    ratingOrd (if s₁ ≥ 6 then RiskRating.very_high
      else if s₁ ≥ 4 then RiskRating.high
      else if s₁ ≥ 2 then RiskRating.moderate
      else RiskRating.low) ≤
    ratingOrd (if s₂ ≥ 6 then RiskRating.very_high
      else if s₂ ≥ 4 then RiskRating.high
      else if s₂ ≥ 2 then RiskRating.moderate
      else RiskRating.low) := by
  split_ifs <;> simp [ratingOrd] <;> omega

/-- C6: the risk-rating classifier is monotone in each of its three inputs
separately: raising only the annual volatility (or only the max-drawdown
percentage, or only the beta) never lowers the rating under the order
`low < moderate < high < very_high`. -/
theorem C6_risk_rating_monotone (v₁ v₂ d₁ d₂ b₁ b₂ : ℚ) (x y : Option ℚ)
    (hv : v₁ ≤ v₂) (hd : d₁ ≤ d₂) (hb : b₁ ≤ b₂) :
    ratingOrd (risk_rating (some v₁) x y) ≤ ratingOrd (risk_rating (some v₂) x y) ∧
    ratingOrd (risk_rating x (some d₁) y) ≤ ratingOrd (risk_rating x (some d₂) y) ∧
    ratingOrd (risk_rating x y (some b₁)) ≤ ratingOrd (risk_rating x y (some b₂)) := by
  unfold risk_rating
  refine ⟨?_, ?_, ?_⟩ <;> apply ratingOrd_score_mono
  · have := volScore_mono v₁ v₂ hv
    omega
  · have := ddScore_mono d₁ d₂ hd
    omega
  · have := betaScore_mono b₁ b₂ hb
    omega

/-- Witness for C6 at concrete inputs: volatility 10% → 40%, drawdown
10 → 40, beta 0.5 → 2, each with the other inputs fixed. -/
theorem C6_witness :
    ratingOrd (risk_rating (some (1/10)) none none) ≤
      ratingOrd (risk_rating (some (2/5)) none none) ∧
    ratingOrd (risk_rating none (some 10) none) ≤
      ratingOrd (risk_rating none (some 40) none) ∧
    ratingOrd (risk_rating none none (some (1/2))) ≤
      ratingOrd (risk_rating none none (some 2)) :=
  C6_risk_rating_monotone (1/10) (2/5) 10 40 (1/2) 2 none none
    (by norm_num) (by norm_num) (by norm_num)
theorem foldl_wilder_nonneg (p : ℕ) (hp : 0 < p) :
    ∀ (l : List ℚ), (∀ x ∈ l, 0 ≤ x) → ∀ (a : ℚ), 0 ≤ a →
      0 ≤ l.foldl (fun avg x => (avg * ((p : ℚ) - 1) + x) / p) a := by
  intro l
  induction l with
  | nil => exact fun _ a ha => ha
  | cons y ys ih =>
    intro hl a ha
    rw [List.foldl_cons]
    apply ih (fun x hx => hl x (List.mem_cons_of_mem _ hx))
    apply div_nonneg _ (by positivity)
    have h1 : (1:ℚ) ≤ (p:ℚ) := by exact_mod_cast hp
    have hy := hl y (List.mem_cons_self y ys)
    have hm : (0:ℚ) ≤ a * ((p:ℚ) - 1) := mul_nonneg ha (by linarith)
    linarith

theorem wilderAvg_nonneg (p : ℕ) (hp : 0 < p) (xs : List ℚ)
    (hxs : ∀ x ∈ xs, 0 ≤ x) : 0 ≤ wilderAvg p xs := by
  unfold wilderAvg
  apply foldl_wilder_nonneg p hp
  · exact fun x hx => hxs x (List.mem_of_mem_drop hx)
  · apply div_nonneg _ (by positivity)
    exact List.sum_nonneg (fun x hx => hxs x (List.mem_of_mem_take hx))

theorem rsiGains_nonneg (closes : List ℚ) : ∀ x ∈ rsiGains closes, 0 ≤ x := by
  intro x hx
  unfold rsiGains at hx
  obtain ⟨d, _, rfl⟩ := List.mem_map.mp hx
  exact le_max_right d 0

theorem rsiLosses_nonneg (closes : List ℚ) : ∀ x ∈ rsiLosses closes, 0 ≤ x := by
  intro x hx
  unfold rsiLosses at hx
  obtain ⟨d, _, rfl⟩ := List.mem_map.mp hx
  exact le_max_right (-d) 0

theorem rsiGains_length (closes : List ℚ) :
    (rsiGains closes).length = min 43 closes.length - 1 := by
  unfold rsiGains pyDeltas rsiOrdered
  simp [List.length_zip]

/-- C5 (amended): for any series of at least 15 closes the RSI is defined
and lies in [0, 100]; it is exactly 100 when the smoothed average loss is
0, and otherwise equals `round(100 - 100/(1 + avg_gain/avg_loss), 2)` —
the source rounds to two decimals, so the claim's unrounded equality fails.
-/
theorem C5_rsi_bounds (closes : List ℚ) (h : 15 ≤ closes.length) :
    ∃ r : ℚ, compute_rsi closes = some r ∧ 0 ≤ r ∧ r ≤ 100 ∧
      (wilderAvg 14 (rsiLosses closes) = 0 → r = 100) ∧
      (wilderAvg 14 (rsiLosses closes) ≠ 0 →
        r = roundTo 2 (100 - 100 /
          (1 + wilderAvg 14 (rsiGains closes) / wilderAvg 14 (rsiLosses closes)))) := by
  have hlen : ¬ (closes.length < 14 + 1) := by omega
  have hg : ¬ ((rsiGains closes).length < 14) := by
    rw [rsiGains_length]
    omega
  unfold compute_rsi
  rw [if_neg hlen, if_neg hg]
  dsimp only
  by_cases hz : wilderAvg 14 (rsiLosses closes) = 0
  · exact ⟨100, by rw [if_pos hz], by norm_num, by norm_num, fun _ => rfl,
      fun hnz => absurd hz hnz⟩
  · have hA : 0 ≤ wilderAvg 14 (rsiGains closes) :=
      wilderAvg_nonneg 14 (by norm_num) _ (rsiGains_nonneg closes)
    have hL0 : 0 ≤ wilderAvg 14 (rsiLosses closes) :=
      wilderAvg_nonneg 14 (by norm_num) _ (rsiLosses_nonneg closes)
    have hL : 0 < wilderAvg 14 (rsiLosses closes) := lt_of_le_of_ne hL0 (Ne.symm hz)
    have hrs0 : 0 ≤ wilderAvg 14 (rsiGains closes) / wilderAvg 14 (rsiLosses closes) :=
      div_nonneg hA hL0
    have h1 : (0:ℚ) < 1 + wilderAvg 14 (rsiGains closes) / wilderAvg 14 (rsiLosses closes) := by
      linarith
    have hfrac_pos : 0 < 100 /
        (1 + wilderAvg 14 (rsiGains closes) / wilderAvg 14 (rsiLosses closes)) := by positivity
    have hfrac_le : 100 /
        (1 + wilderAvg 14 (rsiGains closes) / wilderAvg 14 (rsiLosses closes)) ≤ 100 := by
      rw [div_le_iff₀ h1]
      nlinarith
    refine ⟨roundTo 2 (100 - 100 /
        (1 + wilderAvg 14 (rsiGains closes) / wilderAvg 14 (rsiLosses closes))),
      by rw [if_neg hz], roundTo_nonneg _ _ (by linarith),
      roundTo_le_of_lt _ _ 100 (by linarith) ⟨10000, by norm_num⟩,
      fun hc => absurd hc hz, fun _ => rfl⟩

theorem c5bad_gains :
    rsiGains c5badCloses = [3, 0, 0, 0, 0, 0, 0, 0, 0, 0, 0, 0, 0, 0] := by
  norm_num [rsiGains, pyDeltas, rsiOrdered, c5badCloses, max_def]

theorem c5bad_losses :
    rsiLosses c5badCloses = [0, 6, 0, 0, 0, 0, 0, 0, 0, 0, 0, 0, 0, 0] := by
  norm_num [rsiLosses, pyDeltas, rsiOrdered, c5badCloses, max_def]

theorem c5bad_avg_gain : wilderAvg 14 (rsiGains c5badCloses) = 3/14 := by
  rw [c5bad_gains]
  norm_num [wilderAvg]

theorem c5bad_avg_loss : wilderAvg 14 (rsiLosses c5badCloses) = 3/7 := by
  rw [c5bad_losses]
  norm_num [wilderAvg]

/-- Counterexample for C5: on a 15-observation series with average gain
3/14 and average loss 3/7 the RSI is the rounded 33.33, which differs from
the claimed exact value `100 - 100/(1 + avg_gain/avg_loss) = 100/3`. -/
theorem C5_counterexample :
    compute_rsi c5badCloses = some (3333/100) ∧
    (3333/100 : ℚ) ≠ 100 - 100 /
      (1 + wilderAvg 14 (rsiGains c5badCloses) / wilderAvg 14 (rsiLosses c5badCloses)) := by
  constructor
  · unfold compute_rsi
    rw [if_neg (by norm_num [c5badCloses]), if_neg (by rw [c5bad_gains]; norm_num)]
    dsimp only
    rw [c5bad_avg_gain, c5bad_avg_loss]
    rw [if_neg (by norm_num)]
    norm_num [roundTo, roundHalfEven]
  · rw [c5bad_avg_gain, c5bad_avg_loss]
    norm_num

/-- Witness for C5 on a chronologically increasing 15-close series (every
delta is a gain, so the average loss is 0 and the RSI is 100). -/
theorem C5_witness :
    ∃ r : ℚ, compute_rsi c5upCloses = some r ∧ 0 ≤ r ∧ r ≤ 100 ∧
      (wilderAvg 14 (rsiLosses c5upCloses) = 0 → r = 100) ∧
      (wilderAvg 14 (rsiLosses c5upCloses) ≠ 0 →
        r = roundTo 2 (100 - 100 /
          (1 + wilderAvg 14 (rsiGains c5upCloses) / wilderAvg 14 (rsiLosses c5upCloses)))) :=
  C5_rsi_bounds c5upCloses (by norm_num [c5upCloses])

/-- C2: a run whose fetched dataset lacks a company profile traverses
exactly `pending → gathering_data → failed` and persists no report; more
generally, whenever any phase raises an uncaught condition, the final
status is `failed` and no report row is persisted. -/
theorem C2_orchestrator_failure (b : PipelineBehavior) :
    (∀ raw : RawData, b.fetch = .ok (some raw) → raw.profile = none →
      statusTrace b = [.pending, .gathering_data, .failed] ∧
      reportPersisted b = false) ∧
    (raisesAnyPhase b →
      (statusTrace b).getLast? = some .failed ∧ reportPersisted b = false) := by
  obtain ⟨f, a, s, c, p⟩ := b
  constructor
  · intro raw hf hp
    simp only at hf
    subst hf
    simp [statusTrace, reportPersisted, run_analysis, hp]
  · intro hr
    rcases f with e | r
    · simp [statusTrace, reportPersisted, run_analysis]
    · rcases r with _ | raw
      · simp [statusTrace, reportPersisted, run_analysis]
      · rcases hpr : raw.profile with _ | pr
        · simp [statusTrace, reportPersisted, run_analysis, hpr]
        · rcases a with ea | _
          · simp [statusTrace, reportPersisted, run_analysis, hpr]
          · rcases s with es | _
            · simp [statusTrace, reportPersisted, run_analysis, hpr]
            · rcases c with ec | _
              · simp [statusTrace, reportPersisted, run_analysis, hpr]
              · rcases p with ep | _
                · simp [statusTrace, reportPersisted, run_analysis, hpr]
                · exfalso
                  rcases hr with ⟨e, he⟩ | he | ⟨raw', he, hp'⟩ | ⟨e, he⟩ | ⟨e, he⟩ | ⟨e, he⟩ | ⟨e, he⟩ <;>
                    simp_all

/-- Witness for C2: a concrete behaviour whose fetch succeeds but yields a
dataset without a profile (all later phases would succeed). -/
theorem C2_witness :
    (statusTrace c2behavior = [.pending, .gathering_data, .failed] ∧
      reportPersisted c2behavior = false) ∧
    ((statusTrace c2behavior).getLast? = some .failed ∧
      reportPersisted c2behavior = false) :=
  ⟨(C2_orchestrator_failure c2behavior).1 {} rfl rfl,
   (C2_orchestrator_failure c2behavior).2
     (Or.inr (Or.inr (Or.inl ⟨{}, rfl, rfl⟩)))⟩
